import Mathlib

/-!
# Grim engine core (engines/grim/grim.h)

A shallow embedding of the parts of `GrimEngine` that the header defines:
the `EngineMode` and `SpeechMode` enumerations, the inline mode accessors,
the control-enable flags, and the table of fake key codes.  Member functions
that the header only declares are modelled from the specification and are
marked as such.

Pointers are embedded by identity: an `Actor *` is a number, a `Set *` is the
name of the Set it points to, and a `bool *` gives the cells of the array it
points to, by index.  A store outside that array is undefined behaviour and is
embedded as such.
-/

namespace Grim

/-! ## Enumerations -/

/-- Value assignment of a C enumeration: an enumerator with an initialiser takes
that value, one without takes the value of its predecessor plus one (zero when it
is the first). -/
def assignEnum {α : Type} : Nat → List (α × Option Nat) → List (α × Nat)
  | _, [] => []
  | next, (a, none) :: rest => (a, next) :: assignEnum (next + 1) rest
  | _, (a, some v) :: rest => (a, v) :: assignEnum (v + 1) rest

/-- The enumeration `GrimEngine::EngineMode`. -/
inductive EngineMode where
  | PauseMode
  | NormalMode
  | SmushMode
  | DrawMode
  | OverworldMode
  deriving DecidableEq, Repr

/-- Enumerators of `EngineMode` in declaration order, with their initialisers. -/
def EngineMode.enumerators : List (EngineMode × Option Nat) :=
  [ (.PauseMode, some 1),
    (.NormalMode, some 2),
    (.SmushMode, some 3),
    (.DrawMode, some 4),
    (.OverworldMode, some 5) ]

/-- Numeric code of an engine mode. -/
def EngineMode.code (m : EngineMode) : Nat :=
  ((assignEnum 0 EngineMode.enumerators).lookup m).getD 0

/-- The enumeration `GrimEngine::SpeechMode`. -/
inductive SpeechMode where
  | TextOnly
  | VoiceOnly
  | TextAndVoice
  deriving DecidableEq, Repr

/-- Enumerators of `SpeechMode` in declaration order, with their initialisers. -/
def SpeechMode.enumerators : List (SpeechMode × Option Nat) :=
  [ (.TextOnly, some 1),
    (.VoiceOnly, some 2),
    (.TextAndVoice, some 3) ]

/-- Numeric code of a speech mode. -/
def SpeechMode.code (s : SpeechMode) : Nat :=
  ((assignEnum 0 SpeechMode.enumerators).lookup s).getD 0

/-! ## Engine state -/

/-- An `Actor *`, identified by the object it points to. -/
abbrev Actor := Nat

/-- The data members of `GrimEngine` that hold plain values, in declaration order.
`_currSet` is a `Set *`: `none` is the null pointer, `some name` points to the Set
of that name.  `_controlsEnabled` and `_controlsState` are `bool *`: the value at
a valid index `i` is the cell `i` of the array pointed to. -/
structure GrimEngine where
  _savegameLoadRequest : Bool
  _savegameSaveRequest : Bool
  _currSet : Option String
  _mode : EngineMode
  _previousMode : EngineMode
  _speechMode : SpeechMode
  _textSpeed : Int
  _flipEnable : Bool
  _doFlip : Bool
  _refreshShadowMask : Bool
  _shortFrame : Bool
  _setupChanged : Bool
  _frameStart : Nat
  _frameTime : Nat
  _movieTime : Nat
  _prevSmushFrame : Int
  _frameCounter : Nat
  _lastFrameTime : Nat
  _speedLimitMs : Nat
  _showFps : Bool
  _softRenderer : Bool
  _controlsEnabled : Int → Bool
  _controlsState : Int → Bool
  _changeHardwareState : Bool
  _changeFullscreenState : Bool
  _selectedActor : Option Actor
  _buildActiveActorsList : Bool
  _activeActors : List Actor
  _talkingActors : List Actor
  _gameFlags : Nat
  _pauseStartTime : Nat

/-- A concrete engine state used to evaluate the operations: normal mode, no Set,
no actors, every control cell clear. -/
def sampleEngine : GrimEngine where
  _savegameLoadRequest := false
  _savegameSaveRequest := false
  _currSet := none
  _mode := .NormalMode
  _previousMode := .NormalMode
  _speechMode := .TextAndVoice
  _textSpeed := 7
  _flipEnable := true
  _doFlip := true
  _refreshShadowMask := false
  _shortFrame := false
  _setupChanged := true
  _frameStart := 0
  _frameTime := 0
  _movieTime := 0
  _prevSmushFrame := 0
  _frameCounter := 0
  _lastFrameTime := 0
  _speedLimitMs := 0
  _showFps := false
  _softRenderer := true
  _controlsEnabled := fun _ => false
  _controlsState := fun _ => false
  _changeHardwareState := false
  _changeFullscreenState := false
  _selectedActor := none
  _buildActiveActorsList := false
  _activeActors := []
  _talkingActors := []
  _gameFlags := 0
  _pauseStartTime := 0

/-! ## Mode accessors -/

/-- The inline member `EngineMode getMode() { return _mode; }` -/
def getMode (e : GrimEngine) : EngineMode := e._mode

/-- The inline member `void setPreviousMode(EngineMode mode) { _previousMode = mode; }` -/
def setPreviousMode (mode : EngineMode) (e : GrimEngine) : GrimEngine :=
  { e with _previousMode := mode }

/-- The inline member `EngineMode getPreviousMode() { return _previousMode; }` -/
def getPreviousMode (e : GrimEngine) : EngineMode := e._previousMode

/-- The inline member `void setSpeechMode(SpeechMode mode) { _speechMode = mode; }` -/
def setSpeechMode (mode : SpeechMode) (e : GrimEngine) : GrimEngine :=
  { e with _speechMode := mode }

/-- The inline member `SpeechMode getSpeechMode() { return _speechMode; }` -/
def getSpeechMode (e : GrimEngine) : SpeechMode := e._speechMode

/-- Modelled from the spec: which modes are transient.  The header has no such
notion; the specification names Paused as the transient mode that a retained
previous mode lets the engine resume from, and names no other. -/
def isTransient : EngineMode → Bool
  | .PauseMode => true
  | _ => false

/-- Modelled from the spec: the body of `GrimEngine::setMode`, which the header only
declares.  The transition rule stores the current mode as previous before
overwriting it; the exception is entering Paused while a transient mode is already
active, where the saved mode is kept, so that it still is the mode that was active
before the transient one. -/
def setMode (mode : EngineMode) (e : GrimEngine) : GrimEngine :=
  if mode = .PauseMode ∧ isTransient e._mode = true then
    { e with _mode := mode }
  else
    { e with _previousMode := e._mode, _mode := mode }

/-! ## Sequences of mode operations -/

/-- A call of one of the public mode operations. -/
inductive ModeOp where
  | setMode (mode : EngineMode)
  | setPreviousMode (mode : EngineMode)
  | setSpeechMode (mode : SpeechMode)
  deriving DecidableEq, Repr

/-- The effect of one call. -/
def ModeOp.apply : ModeOp → GrimEngine → GrimEngine
  | .setMode m, e => Grim.setMode m e
  | .setPreviousMode m, e => Grim.setPreviousMode m e
  | .setSpeechMode m, e => Grim.setSpeechMode m e

/-- The effect of a sequence of calls, first call first. -/
def runOps : List ModeOp → GrimEngine → GrimEngine
  | [], e => e
  | op :: rest, e => runOps rest (op.apply e)

/-- Whether a call writes the previous mode directly. -/
def ModeOp.isSetPreviousMode : ModeOp → Bool
  | .setPreviousMode _ => true
  | _ => false

/-- The history observer for the previous-mode invariant: given the operations
applied so far, the mode `cur` they started from and the value `acc` observed
before them, the last non-transient mode that was active before the most recent
entry into a transient mode. -/
def lastStableMode : List ModeOp → EngineMode → Option EngineMode → Option EngineMode
  | [], _, acc => acc
  | .setMode m :: rest, cur, acc =>
      lastStableMode rest m (if isTransient m = true ∧ isTransient cur = false then some cur else acc)
  | .setPreviousMode _ :: rest, cur, acc => lastStableMode rest cur acc
  | .setSpeechMode _ :: rest, cur, acc => lastStableMode rest cur acc

/-! ## Control flags -/

/-- The assignment `p[num] = value` through a `bool *`, for `num` inside the array
that `p` points to: the cell `num` is overwritten, every other cell keeps its
value. -/
def storeCell (p : Int → Bool) (num : Int) (value : Bool) : Int → Bool :=
  fun i => if i = num then value else p i

/-- A valid index of control arrays of `size` cells.  The size is fixed where the
arrays are allocated, outside the header, and is a parameter here. -/
def validControl (size : Nat) (num : Int) : Prop := 0 ≤ num ∧ num < (size : Int)

instance (size : Nat) (num : Int) : Decidable (validControl size num) := by
  unfold validControl
  infer_instance

/-- What executing a `void` member function yields as C++ defines it: the engine
after the call, or undefined behaviour, after which nothing is known of the engine.
There is no case for a failure handed to the caller: the functions return nothing. -/
inductive Outcome where
  | defined (e : GrimEngine)
  | undefinedBehaviour

/-- The inline member `void enableControl(int num) { _controlsEnabled[num] = true; }`
with control arrays of `size` cells.  The body checks nothing.  The test below is
not made by the code: it is the rule of the language that a store through a pointer
is defined only inside the array pointed to. -/
def enableControl (size : Nat) (num : Int) (e : GrimEngine) : Outcome :=
  if validControl size num then
    .defined { e with _controlsEnabled := storeCell e._controlsEnabled num true }
  else
    .undefinedBehaviour

/-- The inline member `void disableControl(int num) { _controlsEnabled[num] = false; }`
with control arrays of `size` cells; see `enableControl`. -/
def disableControl (size : Nat) (num : Int) (e : GrimEngine) : Outcome :=
  if validControl size num then
    .defined { e with _controlsEnabled := storeCell e._controlsEnabled num false }
  else
    .undefinedBehaviour

/-- The engine with the cells of `_controlsEnabled` blanked: every data member other
than `_controlsEnabled`. -/
def exceptControlsEnabled (e : GrimEngine) : GrimEngine :=
  { e with _controlsEnabled := fun _ => false }

/-! ## Sets -/

/-- Modelled from the spec: the body of `GrimEngine::immediatelyRemoveActor`, which
the header only declares: the actor leaves the list of active actors and is evicted
from the list of talking actors as well. -/
def immediatelyRemoveActor (actor : Actor) (e : GrimEngine) : GrimEngine :=
  { e with _activeActors := e._activeActors.filter (fun a => a != actor),
           _talkingActors := e._talkingActors.filter (fun a => a != actor) }

/-- The inline member `const Common::List<Actor *> &getActiveActors() const { return _activeActors; }` -/
def getActiveActors (e : GrimEngine) : List Actor := e._activeActors

/-- The inline member `const Common::List<Actor *> &getTalkingActors() const { return _talkingActors; }` -/
def getTalkingActors (e : GrimEngine) : List Actor := e._talkingActors

/-- Modelled from the spec: the body of `GrimEngine::areActorsTalking`, which the
header only declares: whether some actor of the talking list is talking.  The class
`Actor` is only forward-declared, so what it answers is the parameter `isTalking`. -/
def areActorsTalking (isTalking : Actor → Bool) (e : GrimEngine) : Bool :=
  e._talkingActors.any isTalking

/-! ## Fake key codes -/

/-- The anonymous enumeration of fake `KEYCODE_*` values for joystick and mouse
events, in declaration order. -/
inductive ExtraKeyCode where
  | KEYCODE_JOY1_B1
  | KEYCODE_JOY1_B2
  | KEYCODE_JOY1_B3
  | KEYCODE_JOY1_B4
  | KEYCODE_JOY1_B5
  | KEYCODE_JOY1_B6
  | KEYCODE_JOY1_B7
  | KEYCODE_JOY1_B8
  | KEYCODE_JOY1_B9
  | KEYCODE_JOY1_B10
  | KEYCODE_JOY1_B11
  | KEYCODE_JOY1_B12
  | KEYCODE_JOY1_B13
  | KEYCODE_JOY1_B14
  | KEYCODE_JOY1_B15
  | KEYCODE_JOY1_B16
  | KEYCODE_JOY1_B17
  | KEYCODE_JOY1_B18
  | KEYCODE_JOY1_B19
  | KEYCODE_JOY1_B20
  | KEYCODE_JOY1_HLEFT
  | KEYCODE_JOY1_HUP
  | KEYCODE_JOY1_HRIGHT
  | KEYCODE_JOY1_HDOWN
  | KEYCODE_JOY2_B1
  | KEYCODE_JOY2_B2
  | KEYCODE_JOY2_B3
  | KEYCODE_JOY2_B4
  | KEYCODE_JOY2_B5
  | KEYCODE_JOY2_B6
  | KEYCODE_JOY2_B7
  | KEYCODE_JOY2_B8
  | KEYCODE_JOY2_B9
  | KEYCODE_JOY2_B10
  | KEYCODE_JOY2_B11
  | KEYCODE_JOY2_B12
  | KEYCODE_JOY2_B13
  | KEYCODE_JOY2_B14
  | KEYCODE_JOY2_B15
  | KEYCODE_JOY2_B16
  | KEYCODE_JOY2_HLEFT
  | KEYCODE_JOY2_HUP
  | KEYCODE_JOY2_HRIGHT
  | KEYCODE_JOY2_HDOWN
  | KEYCODE_MOUSE_B1
  | KEYCODE_MOUSE_B2
  | KEYCODE_MOUSE_B3
  | KEYCODE_MOUSE_B4
  | KEYCODE_AXIS_JOY1_X
  | KEYCODE_AXIS_JOY1_Y
  | KEYCODE_AXIS_JOY1_Z
  | KEYCODE_AXIS_JOY1_R
  | KEYCODE_AXIS_JOY1_U
  | KEYCODE_AXIS_JOY1_V
  | KEYCODE_AXIS_JOY2_X
  | KEYCODE_AXIS_JOY2_Y
  | KEYCODE_AXIS_JOY2_Z
  | KEYCODE_AXIS_JOY2_R
  | KEYCODE_AXIS_JOY2_U
  | KEYCODE_AXIS_JOY2_V
  | KEYCODE_AXIS_MOUSE_X
  | KEYCODE_AXIS_MOUSE_Y
  | KEYCODE_AXIS_MOUSE_Z
  | KEYCODE_EXTRA_LAST
  deriving DecidableEq, Repr

/-- Enumerators of the fake key codes in declaration order; only the first has an
initialiser. -/
def ExtraKeyCode.enumerators : List (ExtraKeyCode × Option Nat) :=
  [ (.KEYCODE_JOY1_B1, some 512),
    (.KEYCODE_JOY1_B2, none),
    (.KEYCODE_JOY1_B3, none),
    (.KEYCODE_JOY1_B4, none),
    (.KEYCODE_JOY1_B5, none),
    (.KEYCODE_JOY1_B6, none),
    (.KEYCODE_JOY1_B7, none),
    (.KEYCODE_JOY1_B8, none),
    (.KEYCODE_JOY1_B9, none),
    (.KEYCODE_JOY1_B10, none),
    (.KEYCODE_JOY1_B11, none),
    (.KEYCODE_JOY1_B12, none),
    (.KEYCODE_JOY1_B13, none),
    (.KEYCODE_JOY1_B14, none),
    (.KEYCODE_JOY1_B15, none),
    (.KEYCODE_JOY1_B16, none),
    (.KEYCODE_JOY1_B17, none),
    (.KEYCODE_JOY1_B18, none),
    (.KEYCODE_JOY1_B19, none),
    (.KEYCODE_JOY1_B20, none),
    (.KEYCODE_JOY1_HLEFT, none),
    (.KEYCODE_JOY1_HUP, none),
    (.KEYCODE_JOY1_HRIGHT, none),
    (.KEYCODE_JOY1_HDOWN, none),
    (.KEYCODE_JOY2_B1, none),
    (.KEYCODE_JOY2_B2, none),
    (.KEYCODE_JOY2_B3, none),
    (.KEYCODE_JOY2_B4, none),
    (.KEYCODE_JOY2_B5, none),
    (.KEYCODE_JOY2_B6, none),
    (.KEYCODE_JOY2_B7, none),
    (.KEYCODE_JOY2_B8, none),
    (.KEYCODE_JOY2_B9, none),
    (.KEYCODE_JOY2_B10, none),
    (.KEYCODE_JOY2_B11, none),
    (.KEYCODE_JOY2_B12, none),
    (.KEYCODE_JOY2_B13, none),
    (.KEYCODE_JOY2_B14, none),
    (.KEYCODE_JOY2_B15, none),
    (.KEYCODE_JOY2_B16, none),
    (.KEYCODE_JOY2_HLEFT, none),
    (.KEYCODE_JOY2_HUP, none),
    (.KEYCODE_JOY2_HRIGHT, none),
    (.KEYCODE_JOY2_HDOWN, none),
    (.KEYCODE_MOUSE_B1, none),
    (.KEYCODE_MOUSE_B2, none),
    (.KEYCODE_MOUSE_B3, none),
    (.KEYCODE_MOUSE_B4, none),
    (.KEYCODE_AXIS_JOY1_X, none),
    (.KEYCODE_AXIS_JOY1_Y, none),
    (.KEYCODE_AXIS_JOY1_Z, none),
    (.KEYCODE_AXIS_JOY1_R, none),
    (.KEYCODE_AXIS_JOY1_U, none),
    (.KEYCODE_AXIS_JOY1_V, none),
    (.KEYCODE_AXIS_JOY2_X, none),
    (.KEYCODE_AXIS_JOY2_Y, none),
    (.KEYCODE_AXIS_JOY2_Z, none),
    (.KEYCODE_AXIS_JOY2_R, none),
    (.KEYCODE_AXIS_JOY2_U, none),
    (.KEYCODE_AXIS_JOY2_V, none),
    (.KEYCODE_AXIS_MOUSE_X, none),
    (.KEYCODE_AXIS_MOUSE_Y, none),
    (.KEYCODE_AXIS_MOUSE_Z, none),
    (.KEYCODE_EXTRA_LAST, none) ]

/-- Numeric value of a fake key code. -/
def ExtraKeyCode.code (k : ExtraKeyCode) : Nat :=
  ((assignEnum 0 ExtraKeyCode.enumerators).lookup k).getD 0

/-- The device a fake key code belongs to, as its name tells. -/
inductive KeyGroup where
  | joystick1
  | joystick2
  | mouseButton
  | axisJoystick1
  | axisJoystick2
  | axisMouse
  deriving DecidableEq, Repr

/-- The device of each fake key code; `KEYCODE_EXTRA_LAST` is the end marker and has
none. -/
def ExtraKeyCode.group : ExtraKeyCode → Option KeyGroup
  | .KEYCODE_JOY1_B1 | .KEYCODE_JOY1_B2 | .KEYCODE_JOY1_B3 | .KEYCODE_JOY1_B4
  | .KEYCODE_JOY1_B5 | .KEYCODE_JOY1_B6 | .KEYCODE_JOY1_B7 | .KEYCODE_JOY1_B8
  | .KEYCODE_JOY1_B9 | .KEYCODE_JOY1_B10 | .KEYCODE_JOY1_B11 | .KEYCODE_JOY1_B12
  | .KEYCODE_JOY1_B13 | .KEYCODE_JOY1_B14 | .KEYCODE_JOY1_B15 | .KEYCODE_JOY1_B16
  | .KEYCODE_JOY1_B17 | .KEYCODE_JOY1_B18 | .KEYCODE_JOY1_B19 | .KEYCODE_JOY1_B20
  | .KEYCODE_JOY1_HLEFT | .KEYCODE_JOY1_HUP | .KEYCODE_JOY1_HRIGHT | .KEYCODE_JOY1_HDOWN => some .joystick1
  | .KEYCODE_JOY2_B1 | .KEYCODE_JOY2_B2 | .KEYCODE_JOY2_B3 | .KEYCODE_JOY2_B4
  | .KEYCODE_JOY2_B5 | .KEYCODE_JOY2_B6 | .KEYCODE_JOY2_B7 | .KEYCODE_JOY2_B8
  | .KEYCODE_JOY2_B9 | .KEYCODE_JOY2_B10 | .KEYCODE_JOY2_B11 | .KEYCODE_JOY2_B12
  | .KEYCODE_JOY2_B13 | .KEYCODE_JOY2_B14 | .KEYCODE_JOY2_B15 | .KEYCODE_JOY2_B16
  | .KEYCODE_JOY2_HLEFT | .KEYCODE_JOY2_HUP | .KEYCODE_JOY2_HRIGHT | .KEYCODE_JOY2_HDOWN => some .joystick2
  | .KEYCODE_MOUSE_B1 | .KEYCODE_MOUSE_B2 | .KEYCODE_MOUSE_B3 | .KEYCODE_MOUSE_B4 => some .mouseButton
  | .KEYCODE_AXIS_JOY1_X | .KEYCODE_AXIS_JOY1_Y | .KEYCODE_AXIS_JOY1_Z | .KEYCODE_AXIS_JOY1_R
  | .KEYCODE_AXIS_JOY1_U | .KEYCODE_AXIS_JOY1_V => some .axisJoystick1
  | .KEYCODE_AXIS_JOY2_X | .KEYCODE_AXIS_JOY2_Y | .KEYCODE_AXIS_JOY2_Z | .KEYCODE_AXIS_JOY2_R
  | .KEYCODE_AXIS_JOY2_U | .KEYCODE_AXIS_JOY2_V => some .axisJoystick2
  | .KEYCODE_AXIS_MOUSE_X | .KEYCODE_AXIS_MOUSE_Y | .KEYCODE_AXIS_MOUSE_Z => some .axisMouse
  | .KEYCODE_EXTRA_LAST => none

/-- The fake key codes proper: every enumerator before `KEYCODE_EXTRA_LAST`. -/
def fakeKeyCodes : List ExtraKeyCode :=
  (ExtraKeyCode.enumerators.map Prod.fst).filter (fun k => k != .KEYCODE_EXTRA_LAST)

/-- How many fake key codes belong to a device. -/
def groupCount (g : KeyGroup) : Nat :=
  (fakeKeyCodes.filter (fun k => k.group == some g)).length

/-! ## Engine modes -/

/-- After `setMode(mode)` the engine is in `mode`. -/
theorem setMode_mode (mode : EngineMode) (e : GrimEngine) : (setMode mode e)._mode = mode := by
  unfold setMode
  split <;> rfl

/-- Leaving a non-transient mode stores it as the previous mode. -/
theorem setMode_previousMode_of_stable (mode : EngineMode) (e : GrimEngine)
    (h : isTransient e._mode = false) : (setMode mode e)._previousMode = e._mode := by
  unfold setMode
  split
  · rename_i hc
    rw [h] at hc
    exact absurd hc.2 (by decide)
  · rfl

/-- Entering Paused from a transient mode keeps the previous mode. -/
theorem setMode_pause_previousMode_of_transient (e : GrimEngine)
    (h : isTransient e._mode = true) :
    (setMode .PauseMode e)._previousMode = e._previousMode := by
  unfold setMode
  split
  · rfl
  · rename_i hc
    exact absurd ⟨rfl, h⟩ hc

/-- C8: the engine mode type has exactly the five values PauseMode, NormalMode,
SmushMode, DrawMode and OverworldMode; their numeric codes are the pairwise distinct
integers 1, 2, 3, 4, 5 in that order; and in every engine state `getMode` returns
the stored `_mode`, which is one of the five. -/
theorem engineMode_five_values_with_codes :
    assignEnum 0 EngineMode.enumerators =
        [ (EngineMode.PauseMode, 1), (EngineMode.NormalMode, 2), (EngineMode.SmushMode, 3),
          (EngineMode.DrawMode, 4), (EngineMode.OverworldMode, 5) ]
      ∧ EngineMode.PauseMode.code = 1
      ∧ EngineMode.NormalMode.code = 2
      ∧ EngineMode.SmushMode.code = 3
      ∧ EngineMode.DrawMode.code = 4
      ∧ EngineMode.OverworldMode.code = 5
      ∧ (∀ a b : EngineMode, a.code = b.code → a = b)
      ∧ (∀ m : EngineMode, m = .PauseMode ∨ m = .NormalMode ∨ m = .SmushMode
            ∨ m = .DrawMode ∨ m = .OverworldMode)
      ∧ (∀ e : GrimEngine, getMode e = e._mode
            ∧ (getMode e = .PauseMode ∨ getMode e = .NormalMode ∨ getMode e = .SmushMode
                ∨ getMode e = .DrawMode ∨ getMode e = .OverworldMode)) := by
  refine ⟨by decide, by decide, by decide, by decide, by decide, by decide, ?_, ?_, ?_⟩
  · intro a b
    cases a <;> cases b <;> decide
  · intro m
    cases m <;> simp
  · intro e
    refine ⟨rfl, ?_⟩
    cases h : getMode e <;> simp

/-- C1: for every mode m among NormalMode, SmushMode, DrawMode and OverworldMode, an
engine whose mode is m is back in mode m after `setMode(PauseMode)` followed by
`setMode(getPreviousMode())`. -/
theorem setMode_pause_then_previous_restores (e : GrimEngine) (m : EngineMode)
    (hm : m ∈ [EngineMode.NormalMode, EngineMode.SmushMode, EngineMode.DrawMode,
                EngineMode.OverworldMode])
    (he : getMode e = m) :
    getMode (setMode (getPreviousMode (setMode .PauseMode e)) (setMode .PauseMode e)) = m := by
  have hnp : e._mode ≠ EngineMode.PauseMode := by
    intro hp
    have hmp : m = EngineMode.PauseMode := by rw [← he]; exact hp
    subst hmp
    simp at hm
  have htr : isTransient e._mode = false := by
    cases hmode : e._mode <;> simp_all [isTransient]
  rw [getMode, setMode_mode, getPreviousMode, setMode_previousMode_of_stable _ _ htr]
  exact he

/-- The witness of C1: the sample engine is in NormalMode and returns to it. -/
theorem setMode_pause_then_previous_restores_witness :
    getMode sampleEngine = EngineMode.NormalMode
      ∧ getMode (setMode (getPreviousMode (setMode .PauseMode sampleEngine))
          (setMode .PauseMode sampleEngine)) = EngineMode.NormalMode :=
  ⟨rfl, setMode_pause_then_previous_restores sampleEngine .NormalMode (by decide) rfl⟩

/-- C7: `setSpeechMode(s)` makes `getSpeechMode()` return s and leaves `getMode()` and
`getPreviousMode()` unchanged; `setPreviousMode(m)` leaves `getSpeechMode()` and
`getMode()` unchanged. -/
theorem speechMode_orthogonal_to_mode (e : GrimEngine) (s : SpeechMode) (m : EngineMode) :
    getSpeechMode (setSpeechMode s e) = s
      ∧ getMode (setSpeechMode s e) = getMode e
      ∧ getPreviousMode (setSpeechMode s e) = getPreviousMode e
      ∧ getSpeechMode (setPreviousMode m e) = getSpeechMode e
      ∧ getMode (setPreviousMode m e) = getMode e :=
  ⟨rfl, rfl, rfl, rfl, rfl⟩

/-! ## The previous-mode invariant -/

/-- The mode after a sequence of operations is the one the history observer follows. -/
theorem runOps_tracks_previous :
    ∀ (ops : List ModeOp) (e : GrimEngine) (acc : Option EngineMode),
      (∀ op ∈ ops, op.isSetPreviousMode = false) →
      (∀ m, acc = some m → isTransient e._mode = true → e._previousMode = m) →
      ∀ m, lastStableMode ops e._mode acc = some m →
        isTransient (runOps ops e)._mode = true → (runOps ops e)._previousMode = m := by
  intro ops
  induction ops with
  | nil =>
    intro e acc _ hinv m hlast hpaused
    exact hinv m hlast hpaused
  | cons op rest ih =>
    intro e acc hops hinv m hlast hpaused
    have hrest : ∀ o ∈ rest, o.isSetPreviousMode = false :=
      fun o ho => hops o (List.mem_cons_of_mem _ ho)
    cases op with
    | setMode x =>
      simp only [lastStableMode] at hlast
      simp only [runOps, ModeOp.apply] at hpaused ⊢
      have hmode : (setMode x e)._mode = x := setMode_mode x e
      refine ih (setMode x e)
        (if isTransient x = true ∧ isTransient e._mode = false then some e._mode else acc)
        hrest ?_ m (by rw [hmode]; exact hlast) hpaused
      intro m2 hacc hx
      rw [hmode] at hx
      have hxp : x = EngineMode.PauseMode := by
        cases x <;> simp_all [isTransient]
      subst hxp
      cases htr : isTransient e._mode with
      | true =>
        rw [setMode_pause_previousMode_of_transient e htr]
        simp only [htr] at hacc
        exact hinv m2 (by simpa using hacc) htr
      | false =>
        rw [setMode_previousMode_of_stable _ e htr]
        simp only [htr] at hacc
        simpa [isTransient] using hacc
    | setPreviousMode x =>
      have hbad := hops (ModeOp.setPreviousMode x) (List.mem_cons_self _ _)
      simp [ModeOp.isSetPreviousMode] at hbad
    | setSpeechMode x =>
      simp only [lastStableMode] at hlast
      simp only [runOps, ModeOp.apply] at hpaused ⊢
      exact ih (setSpeechMode x e) acc hrest hinv m hlast hpaused

/-- C3, refuted as stated: from the sample engine in NormalMode, after
`setMode(PauseMode)` and `setPreviousMode(SmushMode)` the last non-transient mode
before the pause is NormalMode while `getPreviousMode()` is SmushMode; and after
`setMode(PauseMode)` and `setMode(NormalMode)` it is NormalMode while
`getPreviousMode()` is PauseMode. -/
theorem previousMode_invariant_counterexample :
    (lastStableMode [ModeOp.setMode .PauseMode, ModeOp.setPreviousMode .SmushMode]
          (getMode sampleEngine) none = some EngineMode.NormalMode
        ∧ getPreviousMode (runOps [ModeOp.setMode .PauseMode, ModeOp.setPreviousMode .SmushMode]
            sampleEngine) = EngineMode.SmushMode)
      ∧ (lastStableMode [ModeOp.setMode .PauseMode, ModeOp.setMode .NormalMode]
          (getMode sampleEngine) none = some EngineMode.NormalMode
        ∧ getPreviousMode (runOps [ModeOp.setMode .PauseMode, ModeOp.setMode .NormalMode]
            sampleEngine) = EngineMode.PauseMode) := by
  refine ⟨⟨by decide, by decide⟩, ⟨by decide, by decide⟩⟩

/-- C3, amended: in every state reached from any engine state by `setMode` and
`setSpeechMode` calls, while the engine is in a transient mode `getPreviousMode()` is
the last non-transient mode that was active before the most recent entry into a
transient mode; `setPreviousMode(x)` then makes `getPreviousMode()` return x. -/
theorem previousMode_tracks_while_paused (e : GrimEngine) (ops : List ModeOp) (m : EngineMode)
    (hops : ∀ op ∈ ops, op.isSetPreviousMode = false)
    (hlast : lastStableMode ops (getMode e) none = some m)
    (hpaused : isTransient (getMode (runOps ops e)) = true) :
    getPreviousMode (runOps ops e) = m
      ∧ ∀ x, getPreviousMode (setPreviousMode x (runOps ops e)) = x :=
  ⟨runOps_tracks_previous ops e none hops (fun _ h => by simp at h) m hlast hpaused,
    fun _ => rfl⟩

/-- The witness of the amended C3: pausing twice from NormalMode, with a speech-mode
change in between, keeps NormalMode as the previous mode. -/
theorem previousMode_tracks_while_paused_witness :
    getPreviousMode (runOps [ModeOp.setMode .PauseMode, ModeOp.setSpeechMode .TextOnly,
        ModeOp.setMode .PauseMode] sampleEngine) = EngineMode.NormalMode
      ∧ ∀ x, getPreviousMode (setPreviousMode x (runOps [ModeOp.setMode .PauseMode,
          ModeOp.setSpeechMode .TextOnly, ModeOp.setMode .PauseMode] sampleEngine)) = x :=
  previousMode_tracks_while_paused sampleEngine
    [ModeOp.setMode .PauseMode, ModeOp.setSpeechMode .TextOnly, ModeOp.setMode .PauseMode]
    .NormalMode (by decide) (by decide) (by decide)

/-! ## Control flags -/

/-- Reading the cell that was just stored. -/
theorem storeCell_same (p : Int → Bool) (num : Int) (value : Bool) :
    storeCell p num value num = value := by
  simp [storeCell]

/-- Reading any other cell. -/
theorem storeCell_other (p : Int → Bool) (num k : Int) (value : Bool) (h : k ≠ num) :
    storeCell p num value k = p k := by
  simp [storeCell, h]

/-- A second store to the same cell overrides the first. -/
theorem storeCell_storeCell (p : Int → Bool) (num : Int) (v w : Bool) :
    storeCell (storeCell p num v) num w = storeCell p num w := by
  funext i
  by_cases h : i = num <;> simp [storeCell, h]

/-- C9: for every valid control index num, `enableControl(num)` sets the enabled flag
of control num to true and `disableControl(num)` sets it to false; neither changes
another control's flag, an entry of `_controlsState` or any other data member; each
is idempotent, and of an enable/disable pair applied in sequence the later call
determines the flag. -/
theorem enable_disable_control_valid (size : Nat) (num : Int) (e : GrimEngine)
    (h : validControl size num) :
    ∃ en dis : GrimEngine,
      enableControl size num e = Outcome.defined en
        ∧ disableControl size num e = Outcome.defined dis
        ∧ en._controlsEnabled num = true
        ∧ dis._controlsEnabled num = false
        ∧ (∀ k, k ≠ num →
              en._controlsEnabled k = e._controlsEnabled k
                ∧ dis._controlsEnabled k = e._controlsEnabled k)
        ∧ en._controlsState = e._controlsState
        ∧ dis._controlsState = e._controlsState
        ∧ exceptControlsEnabled en = exceptControlsEnabled e
        ∧ exceptControlsEnabled dis = exceptControlsEnabled e
        ∧ enableControl size num en = Outcome.defined en
        ∧ disableControl size num dis = Outcome.defined dis
        ∧ disableControl size num en = Outcome.defined dis
        ∧ enableControl size num dis = Outcome.defined en := by
  refine ⟨{ e with _controlsEnabled := storeCell e._controlsEnabled num true },
    { e with _controlsEnabled := storeCell e._controlsEnabled num false },
    if_pos h, if_pos h, storeCell_same _ _ _, storeCell_same _ _ _, ?_, rfl, rfl, rfl, rfl,
    ?_, ?_, ?_, ?_⟩
  · intro k hk
    exact ⟨storeCell_other _ _ _ _ hk, storeCell_other _ _ _ _ hk⟩
  · simp [enableControl, h, storeCell_storeCell]
  · simp [disableControl, h, storeCell_storeCell]
  · simp [disableControl, h, storeCell_storeCell]
  · simp [enableControl, h, storeCell_storeCell]

/-- The witness of C9: control 3 of 575. -/
theorem enable_disable_control_valid_witness :
    validControl 575 3
      ∧ ∃ en dis : GrimEngine,
          enableControl 575 3 sampleEngine = Outcome.defined en
            ∧ disableControl 575 3 sampleEngine = Outcome.defined dis
            ∧ en._controlsEnabled 3 = true
            ∧ dis._controlsEnabled 3 = false
            ∧ disableControl 575 3 en = Outcome.defined dis := by
  obtain ⟨en, dis, h1, h2, h3, h4, _, _, _, _, _, _, _, h12, _⟩ :=
    enable_disable_control_valid 575 3 sampleEngine (by decide)
  exact ⟨by decide, en, dis, h1, h2, h3, h4, h12⟩

/-- C6: for every actor a in both the active and the talking list, after
`immediatelyRemoveActor(a)` the actor is in neither list, every other actor's
membership in both lists is unchanged, and `areActorsTalking()` is true exactly when
some remaining actor of the talking list is talking. -/
theorem immediatelyRemoveActor_evicts_talker (isTalking : Actor → Bool) (e : GrimEngine)
    (a : Actor) (hactive : a ∈ getActiveActors e) (htalking : a ∈ getTalkingActors e) :
    a ∉ getActiveActors (immediatelyRemoveActor a e)
      ∧ a ∉ getTalkingActors (immediatelyRemoveActor a e)
      ∧ (∀ b, b ≠ a →
            (b ∈ getActiveActors (immediatelyRemoveActor a e) ↔ b ∈ getActiveActors e)
              ∧ (b ∈ getTalkingActors (immediatelyRemoveActor a e) ↔ b ∈ getTalkingActors e))
      ∧ (areActorsTalking isTalking (immediatelyRemoveActor a e) = true ↔
            ∃ b, b ∈ getTalkingActors e ∧ b ≠ a ∧ isTalking b = true) := by
  have _hin := And.intro hactive htalking
  refine ⟨?_, ?_, ?_, ?_⟩
  · simp [getActiveActors, immediatelyRemoveActor]
  · simp [getTalkingActors, immediatelyRemoveActor]
  · intro b hb
    simp [getActiveActors, getTalkingActors, immediatelyRemoveActor, hb]
  · simp only [areActorsTalking, immediatelyRemoveActor, getTalkingActors, List.any_eq_true,
      List.mem_filter]
    constructor
    · rintro ⟨b, ⟨hmem, hne⟩, ht⟩
      exact ⟨b, hmem, by simpa using hne, ht⟩
    · rintro ⟨b, hmem, hne, ht⟩
      exact ⟨b, ⟨hmem, by simpa using hne⟩, ht⟩

/-- The witness of C6: actor 1 is active and talking next to actor 2; once actor 1 is
removed, actors are talking exactly when actor 2 is. -/
theorem immediatelyRemoveActor_evicts_talker_witness :
    getTalkingActors (immediatelyRemoveActor 1
        { sampleEngine with _activeActors := [1, 2], _talkingActors := [1, 2] }) = [2]
      ∧ (1 : Actor) ∉ getActiveActors (immediatelyRemoveActor 1
          { sampleEngine with _activeActors := [1, 2], _talkingActors := [1, 2] })
      ∧ areActorsTalking (fun b => b == 1) (immediatelyRemoveActor 1
          { sampleEngine with _activeActors := [1, 2], _talkingActors := [1, 2] }) = false :=
  have h := immediatelyRemoveActor_evicts_talker (fun b => b == 1)
    { sampleEngine with _activeActors := [1, 2], _talkingActors := [1, 2] } 1
    (by decide) (by decide)
  ⟨by decide, h.1, by decide⟩

/-! ## Fake key codes -/

/-- C10: the fake key codes are pairwise distinct consecutive integers from
KEYCODE_JOY1_B1 = 512 to KEYCODE_AXIS_MOUSE_Z = 574, so that KEYCODE_EXTRA_LAST = 575
and every fake code c satisfies 512 <= c < KEYCODE_EXTRA_LAST; there are 63 of them:
24 for joystick 1, 20 for joystick 2, 4 mouse buttons, 6 + 6 joystick axes and 3
mouse axes. -/
theorem fake_key_codes_consecutive_from_512 :
    fakeKeyCodes.map ExtraKeyCode.code = List.range' 512 63
      ∧ (fakeKeyCodes.map ExtraKeyCode.code).Nodup
      ∧ fakeKeyCodes.length = 63
      ∧ (∀ k : ExtraKeyCode, k ∈ fakeKeyCodes ↔ k ≠ .KEYCODE_EXTRA_LAST)
      ∧ ExtraKeyCode.KEYCODE_JOY1_B1.code = 512
      ∧ ExtraKeyCode.KEYCODE_AXIS_MOUSE_Z.code = 574
      ∧ ExtraKeyCode.KEYCODE_EXTRA_LAST.code = 575
      ∧ (∀ k : ExtraKeyCode, k ≠ .KEYCODE_EXTRA_LAST →
            512 ≤ k.code ∧ k.code < ExtraKeyCode.KEYCODE_EXTRA_LAST.code)
      ∧ (∀ a b : ExtraKeyCode, a.code = b.code → a = b)
      ∧ groupCount .joystick1 = 24
      ∧ groupCount .joystick2 = 20
      ∧ groupCount .mouseButton = 4
      ∧ groupCount .axisJoystick1 = 6
      ∧ groupCount .axisJoystick2 = 6
      ∧ groupCount .axisMouse = 3 := by
  have hcodes : fakeKeyCodes.map ExtraKeyCode.code = List.range' 512 63 := by decide
  have hidx : ∀ k : ExtraKeyCode, k.code = 512 + k.toCtorIdx := by
    intro k
    cases k <;> decide
  refine ⟨hcodes, ?_, by decide, ?_, by decide, by decide, by decide, ?_, ?_,
    by decide, by decide, by decide, by decide, by decide, by decide⟩
  · rw [hcodes]
    exact List.nodup_range' 512 63
  · intro k
    cases k <;> decide
  · intro k
    cases k <;> decide
  · intro a b hab
    rw [hidx a, hidx b] at hab
    have hctor : a.toCtorIdx = b.toCtorIdx := by omega
    cases a <;> cases b <;> first | rfl | (exact absurd hctor (by decide))

end Grim
